import Mathlib

/-!
Shallow embedding of the BotOracle CRM cadence engine
(`app/database/models.py`, `app/crm/dispatcher.py`, `app/crm/planner.py`).

Timestamps are modelled as `Int` minutes; Python `timedelta.days` is floor
division of the difference by 1440 (`Int.fdiv`).  Database rows become Lean
structures, SQL `UPDATE`s become pure maps over lists of rows, and the three
cadence operations become functions on a per-user `CadenceState`.
-/

namespace BotOracle

/-- One row of `admin_tasks`, restricted to the columns the CRM engine reads
or writes.  `status` ranges over the source's string statuses
(`scheduled`, `due`, `sent`, `failed`, `cancelled`, `pending`). -/
structure AdminTask where
  id : Nat
  user_id : Nat
  type : String
  status : String
  due_at : Int
  updated_at : Int
deriving DecidableEq

/-- The proactive task types cancelled by `CadenceManager.stop_cadence`
(models.py line 852). -/
def proactive_types : List String :=
  ["PING", "NUDGE_SUB", "DAILY_MSG_PROMPT", "RECOVERY", "LIMIT_INFO"]

/-- `status IN ('scheduled', 'due')` — the non-terminal statuses a pending
task can have in the queries of models.py. -/
def isPendingStatus (st : String) : Bool :=
  st == "scheduled" || st == "due"

/-- Projection of the database onto a single user, as read and written by
`CadenceManager` in models.py: the user's cadence columns, their
`admin_tasks` rows, and the stream of logged event types. -/
structure CadenceState where
  user_id : Nat
  crm_cadence_level : Nat
  last_crm_response_at : Option Int
  crm_stopped_reason : Option String
  tasks : List AdminTask
  events : List String
  next_task_id : Nat
deriving DecidableEq

/-- `AdminTaskModel.create_task` (models.py lines 368-385): inserts a new
`admin_tasks` row and logs an `admin_task_created` event.
Modelled from the spec: the `INSERT` names no status, and the database
schema with the column default is not in the repository; spec §3 gives the
lifecycle `scheduled → sent | failed | cancelled`, so a fresh task starts
as `scheduled`. -/
def create_task (s : CadenceState) (now : Int) (task_type : String)
    (due_at : Int) : CadenceState :=
  { s with
    tasks := s.tasks ++ [{ id := s.next_task_id, user_id := s.user_id,
                           type := task_type, status := "scheduled",
                           due_at := due_at, updated_at := now }],
    next_task_id := s.next_task_id + 1,
    events := s.events ++ ["admin_task_created"] }

/-- `CadenceManager.stop_cadence` (models.py lines 829-872): set level 3 and
the reason, cancel pending tasks of the proactive types, create a FAREWELL
task due 1 hour (60 minutes) out, and log `cadence_stopped`. -/
def stop_cadence (now : Int) (reason : String) (s : CadenceState) :
    CadenceState :=
  let s1 := { s with crm_cadence_level := 3,
                     crm_stopped_reason := some reason }
  let s2 := { s1 with tasks := s1.tasks.map (fun t =>
      if t.user_id == s.user_id && isPendingStatus t.status
          && proactive_types.contains t.type then
        { t with status := "cancelled", updated_at := now }
      else t) }
  let s3 := create_task s2 now "FAREWELL" (now + 60)
  { s3 with events := s3.events ++ ["cadence_stopped"] }

/-- Python `(now - last).days`: floor division of the difference by one day
(1440 minutes in this embedding). -/
def days_since (now t : Int) : Int := (now - t).fdiv 1440

/-- The level computation inside `CadenceManager.update_cadence_level`
(models.py lines 718-731): never-responded users default to level 1;
otherwise 14+ days → 3, 2+ days → 2, else 1. -/
def computed_cadence_level (now : Int) (last : Option Int) : Nat :=
  match last with
  | none => 1
  | some t =>
      if days_since now t ≥ 14 then 3
      else if days_since now t ≥ 2 then 2
      else 1

/-- `CadenceManager.update_cadence_level` (models.py lines 699-752).
`old_level` is `user['crm_cadence_level'] or 1` (a falsy 0 reads as 1).
If the computed level differs it is persisted and `cadence_level_changed`
logged, and a fresh transition to level 3 invokes `stop_cadence` with
reason `no_response_14d`.  Returns the new level. -/
def update_cadence_level (now : Int) (s : CadenceState) :
    Nat × CadenceState :=
  let old_level := if s.crm_cadence_level = 0 then 1 else s.crm_cadence_level
  let new_level := computed_cadence_level now s.last_crm_response_at
  if new_level ≠ old_level then
    let s1 := { s with crm_cadence_level := new_level,
                       events := s.events ++ ["cadence_level_changed"] }
    let s2 := if new_level = 3 ∧ old_level < 3 then
        stop_cadence now "no_response_14d" s1
      else s1
    (new_level, s2)
  else (new_level, s)

/-- `CadenceManager.track_crm_response` (models.py lines 755-800): set
`last_crm_response_at = now`, force level 1, clear the stopped reason;
only when the prior level was above 1, cancel pending FAREWELL tasks and
log `cadence_level_restored`. -/
def track_crm_response (now : Int) (s : CadenceState) : CadenceState :=
  let old_level := s.crm_cadence_level
  let s1 := { s with last_crm_response_at := some now,
                     crm_cadence_level := 1,
                     crm_stopped_reason := none }
  let s2 := if 1 < old_level then
      { s1 with tasks := s1.tasks.map (fun t =>
          if t.user_id == s.user_id
              && (t.status == "scheduled" || t.status == "due"
                  || t.status == "pending")
              && t.type == "FAREWELL" then
            { t with status := "cancelled", updated_at := now }
          else t) }
    else s1
  if 1 < old_level then
    { s2 with events := s2.events ++ ["cadence_level_restored"] }
  else s2

/-- A fresh user's cadence state: level 1 (spec §3: 1 = Normal is the
default), never responded, no stopped reason, no tasks. -/
def init_state (uid : Nat) : CadenceState :=
  { user_id := uid, crm_cadence_level := 1, last_crm_response_at := none,
    crm_stopped_reason := none, tasks := [], events := [],
    next_task_id := 0 }

/-- States reachable from a fresh user by any sequence of the three cadence
operations. -/
inductive Reachable : CadenceState → Prop where
  | init : ∀ uid, Reachable (init_state uid)
  | update : ∀ s now, Reachable s → Reachable (update_cadence_level now s).2
  | track : ∀ s now, Reachable s → Reachable (track_crm_response now s)
  | stop : ∀ s now r, Reachable s → Reachable (stop_cadence now r s)

/-- Number of the user's still-pending FAREWELL tasks. -/
def countPendingFarewell (s : CadenceState) : Nat :=
  s.tasks.countP (fun t =>
    t.user_id == s.user_id && t.type == "FAREWELL" && isPendingStatus t.status)

/-! ## Task store: reschedule-on-reply and the due-task fetch -/

/-- The `WHERE` clause of `AdminTaskModel.reschedule_upcoming_tasks`
(models.py lines 464-476): the user's tasks of the given types, still
scheduled/due, strictly in the future, and due within `hours_ahead` hours
of now. -/
def reschedule_matches (user_id : Nat) (task_types : List String)
    (hours_ahead : Nat) (now : Int) (t : AdminTask) : Bool :=
  t.user_id == user_id && task_types.contains t.type
    && isPendingStatus t.status
    && now < t.due_at && t.due_at ≤ now + hours_ahead * 60

/-- Python `postpone_hours or 24` (models.py line 461): both a missing
cadence row (`None`) and a stored falsy 0 become the 24-hour default. -/
def postpone_or_default (postpone_fetch : Option Nat) : Nat :=
  match postpone_fetch with
  | none => 24
  | some 0 => 24
  | some n => n

/-- `AdminTaskModel.reschedule_upcoming_tasks` (models.py lines 445-484).
`postpone_fetch` models the `SELECT postpone_on_reply FROM contact_cadence`
result.  Matching rows get `due_at = now + postpone` and a touched
`updated_at`; the returned count is the number of rows the `UPDATE`
matched. -/
def reschedule_upcoming_tasks (postpone_fetch : Option Nat) (now : Int)
    (user_id : Nat) (task_types : List String) (hours_ahead : Nat)
    (tasks : List AdminTask) : List AdminTask × Nat :=
  let postpone_hours : Nat := postpone_or_default postpone_fetch
  (tasks.map (fun t =>
      if reschedule_matches user_id task_types hours_ahead now t then
        { t with due_at := now + postpone_hours * 60, updated_at := now }
      else t),
   tasks.countP (reschedule_matches user_id task_types hours_ahead now))

/-- One row of `users`, restricted to the columns `get_due_tasks` joins in. -/
structure UserRow where
  id : Nat
  tg_user_id : Nat
  is_blocked : Bool
deriving DecidableEq

/-- The `WHERE` clause of `AdminTaskModel.get_due_tasks` (models.py lines
396-398): status scheduled/due, `due_at <= now()`, and the joined user not
blocked. -/
def due_eligible (now : Int) (p : AdminTask × UserRow) : Bool :=
  isPendingStatus p.1.status && p.1.due_at ≤ now && p.2.is_blocked == false

/-- Insertion into a list kept sorted by ascending `due_at`. -/
def insertByDue (p : AdminTask × UserRow) :
    List (AdminTask × UserRow) → List (AdminTask × UserRow)
  | [] => [p]
  | q :: rest =>
      if p.1.due_at ≤ q.1.due_at then p :: q :: rest
      else q :: insertByDue p rest

/-- `ORDER BY t.due_at` of the due-task query, as an insertion sort. -/
def sortByDue : List (AdminTask × UserRow) → List (AdminTask × UserRow)
  | [] => []
  | p :: rest => insertByDue p (sortByDue rest)

/-- `AdminTaskModel.get_due_tasks` (models.py lines 388-403): join tasks
with their users, keep the eligible rows, order by `due_at` ascending and
take at most `limit` rows. -/
def get_due_tasks (limit : Nat) (now : Int) (tasks : List AdminTask)
    (users : List UserRow) : List (AdminTask × UserRow) :=
  let joined := tasks.flatMap (fun t =>
    (users.filter (fun u => u.id == t.user_id)).map (fun u => (t, u)))
  ((sortByDue (joined.filter (due_eligible now))).take limit)

/-! ## Dispatcher -/

/-- A due-task row as the dispatcher consumes it (task columns joined with
the user context). -/
structure TaskRow where
  id : Nat
  user_id : Nat
  tg_user_id : Nat
  type : String
deriving DecidableEq

/-- Whether the first list is an initial segment of the second. -/
def isPre : List Char → List Char → Bool
  | [], _ => true
  | _ :: _, [] => false
  | a :: as, b :: bs => a == b && isPre as bs

/-- Substring containment, Python's `needle in hay`, on character lists. -/
def containsSub (hay needle : List Char) : Bool :=
  (List.range (hay.length + 1)).any (fun i => isPre needle (hay.drop i))

/-- The block-detection heuristic of `CRMDispatcher._process_task`
(dispatcher.py lines 82-83): lowercase the error text and look for any of
the three keywords. -/
def isBlockedError (e : String) : Bool :=
  ["blocked", "forbidden", "deactivated"].any
    (fun k => containsSub (e.toList.map Char.toLower) k.toList)

/-- The generic apology used when message generation fails
(dispatcher.py line 156). -/
def fallbackText : String := "привет! я здесь, если что нужно 🌟"

/-- `CRMDispatcher._get_task_message` (dispatcher.py lines 102-156).
The external generators (`generate_daily_whisper`, `generate_crm_message`,
`AdminTemplateModel.get_template`) are one opaque collaborator
`gen : task type → Except error text`; `wrap` is `persona.wrap`.  Daily
whisper types get the moon prefix, every other type gets persona wrapping;
any generation failure falls back to the persona-wrapped apology. -/
def getTaskMessage (wrap : String → String)
    (gen : String → Except String String) (task_type : String) : String :=
  match gen task_type with
  | .ok m =>
      if task_type == "DAILY_MSG_PROMPT" || task_type == "DAILY_MSG_PUSH" then
        "🌙 **Шепот дня:**\n\n" ++ m
      else wrap m
  | .error _ => wrap fallbackText

/-- The observable effects of processing one task: the returned counter
key, the delivery attempts made (task id, recipient, text), the final task
status and result code, and whether the user was marked blocked. -/
structure DispatchEffects where
  outcome : String
  attempts : List (Nat × Nat × String)
  taskStatus : String
  resultCode : Option String
  setUserBlocked : Bool
deriving DecidableEq

/-- `CRMDispatcher._process_task` (dispatcher.py lines 46-100).  `send`
models `bot.send_message`: `none` is success, `some e` a raised error with
text `e`.  On success the task is marked sent; on failure the error text
decides between the blocked path (user blocked, task failed with code
`blocked`) and the generic path (task failed with a `send_error` code). -/
def processTask (wrap : String → String)
    (gen : String → Except String String)
    (send : Nat → String → Option String) (task : TaskRow) :
    DispatchEffects :=
  let message_text := getTaskMessage wrap gen task.type
  match send task.tg_user_id message_text with
  | none =>
      { outcome := "sent",
        attempts := [(task.id, task.tg_user_id, message_text)],
        taskStatus := "sent", resultCode := none, setUserBlocked := false }
  | some e =>
      if isBlockedError e then
        { outcome := "blocked",
          attempts := [(task.id, task.tg_user_id, message_text)],
          taskStatus := "failed", resultCode := some "blocked",
          setUserBlocked := true }
      else
        { outcome := "failed",
          attempts := [(task.id, task.tg_user_id, message_text)],
          taskStatus := "failed",
          resultCode := some ("send_error: " ++ e),
          setUserBlocked := false }

/-- The `stats` dictionary of `dispatch_due_tasks`. -/
structure DispatchStats where
  sent : Nat
  failed : Nat
  blocked : Nat
deriving DecidableEq

/-- `CRMDispatcher.dispatch_due_tasks` (dispatcher.py lines 23-44): process
each fetched task once, incrementing the counter named by its outcome. -/
def dispatch_due_tasks (wrap : String → String)
    (gen : String → Except String String)
    (send : Nat → String → Option String) (tasks : List TaskRow) :
    DispatchStats × List DispatchEffects :=
  let effs := tasks.map (processTask wrap gen send)
  ({ sent := effs.countP (fun x => x.outcome == "sent"),
     failed := effs.countP (fun x => x.outcome == "failed"),
     blocked := effs.countP (fun x => x.outcome == "blocked") },
   effs)

/-! ## Planner -/

/-- The priority weights of `CRMPlanner._select_tasks`
(planner.py lines 162-168); unknown types default to weight 1. -/
def priority_weight (t : String) : Nat :=
  if t == "DAILY_MSG_PROMPT" then 3
  else if t == "RECOVERY" then 3
  else if t == "LIMIT_INFO" then 2
  else if t == "PING" then 2
  else if t == "NUDGE_SUB" then 1
  else 1

/-- `random.choice(available)` for a nonempty list, with the randomness an
injected oracle choosing a position. -/
def pick (oracle : List String → Nat) (a : String) (rest : List String) :
    String :=
  (a :: rest).get
    ⟨oracle (a :: rest) % (a :: rest).length, Nat.mod_lt _ (by simp)⟩

/-- The selection loop of `CRMPlanner._select_tasks` (planner.py lines
177-191): draw from the weighted pool, append if new, and drop every copy
of the drawn type; `n` is the precomputed iteration count
`min(max_tasks, len(set(candidates)))`. -/
def selectLoop (oracle : List String → Nat) :
    Nat → List String → List String → List String
  | 0, _, selected => selected
  | n + 1, available, selected =>
      match available with
      | [] => selected
      | a :: rest =>
          let choice := pick oracle a rest
          let selected' :=
            if selected.contains choice then selected
            else selected ++ [choice]
          selectLoop oracle n ((a :: rest).filter (fun x => x ≠ choice))
            selected'

/-- `CRMPlanner._select_tasks` (planner.py lines 156-191): weight the
candidates into a multiset and draw without replacement. -/
def select_tasks (oracle : List String → Nat) (candidates : List String)
    (max_tasks : Nat) : List String :=
  if candidates.isEmpty then []
  else
    let weighted := candidates.flatMap
      (fun t => List.replicate (priority_weight t) t)
    selectLoop oracle (min max_tasks candidates.dedup.length) weighted []

/-- Python `random.randint(a, b)` with an injected oracle: raises
(`Except.error`) when the range `a..b` is empty, otherwise returns a value
in `[a, b]`. -/
def randint (r : Nat) (a b : Int) : Except String Int :=
  if a ≤ b then .ok (a + (r : Int) % (b - a + 1))
  else .error "empty range for randrange"

/-- The hardcoded window weights of `CRMPlanner._calculate_due_time`
(planner.py line 209): morning 0.4, day 0.3, evening 0.3 — always three
entries, however many windows are configured. -/
def window_weights : List ℚ := [0.4, 0.3, 0.3]

/-- Python `random.choices(population, weights)[0]` with an injected
oracle: raises when the weight count differs from the population size (or
the total weight is not positive), otherwise returns an element of the
population. -/
def choicesPick (r : Nat) (population : List String) (weights : List ℚ) :
    Except String String :=
  if h : population.length = weights.length ∧ population ≠ []
      ∧ 0 < weights.sum then
    .ok (population.get
      ⟨r % population.length, Nat.mod_lt _ (List.length_pos.mpr h.2.1)⟩)
  else .error "the number of weights does not match the population"

/-- Dictionary access `windows[selected_window]`. -/
def lookupWindow (name : String) :
    List (String × Int × Int) → Option (Int × Int)
  | [] => none
  | (k, se) :: rest => if k == name then some se else lookupWindow name rest

/-- Midnight of `now`'s day: `datetime.now().replace(hour=h, minute=m,
second=0, microsecond=0)` is this plus `h*60 + m`. -/
def dayStart (now : Int) : Int := now - now % 1440

/-- `datetime.replace(hour, minute, 0, 0)`: raises on an out-of-range hour
or minute, otherwise rebuilds the timestamp on the same day. -/
def datetimeReplace (now hour minute : Int) : Except String Int :=
  if 0 ≤ hour ∧ hour ≤ 23 ∧ 0 ≤ minute ∧ minute ≤ 59 then
    .ok (dayStart now + hour * 60 + minute)
  else .error "hour must be in 0..23"

/-- The quiet-hour columns of the `user_prefs` row as
`CRMPlanner._calculate_due_time` reads them, in minutes of the day. -/
structure UserPrefsRow where
  allow_proactive : Option Bool
  max_contacts_per_day : Nat
  quiet_start : Int
  quiet_end : Int
deriving DecidableEq

/-- `CRMPlanner._calculate_due_time` (planner.py lines 193-234).
`windows` is the resolved `prefers_windows` map as an association list of
named `[start_hour, end_hour)` ranges; `r1..r4` are the injected random
draws.  Faithful to the source's order: pick a window with the three
hardcoded weights, draw an hour in `[start, end-1]` and a minute, build
the wall-clock time, override to 09:15 when it falls in quiet hours, and
add the ±15-minute jitter. -/
def calculate_due_time (r1 r2 r3 r4 : Nat) (prefs : UserPrefsRow)
    (windows : List (String × Int × Int)) (now : Int) :
    Except String Int := do
  let window_choices := windows.map Prod.fst
  let selected_window ← choicesPick r1 window_choices window_weights
  let se := (lookupWindow selected_window windows).getD (0, 0)
  let hour ← randint r2 se.1 (se.2 - 1)
  let minute ← randint r3 0 59
  let base ← datetimeReplace now hour minute
  let hm := hour * 60 + minute
  let due_time :=
    if prefs.quiet_start ≤ hm ∨ hm ≤ prefs.quiet_end then
      dayStart now + (9 * 60 + 15)
    else base
  let jitter ← randint r4 (-15) 15
  return due_time + jitter

/-- The task-creation loop of `CRMPlanner.plan_for_user` (planner.py lines
67-78): one due-time computation per selected type; a raise aborts the
loop (the exception is caught by the surrounding handler), leaving the
already-created tasks in place.  Returns the created `(type, due_at)`
pairs and whether the loop finished without an exception. -/
def createLoop (calcDue : Nat → Except String Int) :
    List String → Nat → List (String × Int) × Bool
  | [], _ => ([], true)
  | t :: rest, i =>
      match calcDue i with
      | .error _ => ([], false)
      | .ok d =>
          let r := createLoop calcDue rest (i + 1)
          ((t, d) :: r.1, r.2)

/-- `CRMPlanner.plan_for_user` (planner.py lines 32-87).  Preferences are
passed in (`get_prefs` resolved); `calcDue i` is the due-time computation
for the `i`-th selected task.  Returns the created tasks and the
function's return value, which is 0 when proactive contact is off, when no
slots remain, or when an exception was swallowed by the handler at lines
85-87. -/
def plan_for_user (oracle : List String → Nat)
    (calcDue : Nat → Except String Int) (prefs : UserPrefsRow)
    (contacts_today : Nat) (candidates : List String) :
    List (String × Int) × Nat :=
  if prefs.allow_proactive ≠ some true then ([], 0)
  else
    let remaining_slots := prefs.max_contacts_per_day - contacts_today
    if remaining_slots = 0 then ([], 0)
    else
      let selected := select_tasks oracle candidates remaining_slots
      let cr := createLoop calcDue selected 0
      (cr.1, if cr.2 then cr.1.length else 0)

/-! ## Helper lemmas about the cadence operations -/

lemma update_cadence_level_fst (now : Int) (s : CadenceState) :
    (update_cadence_level now s).1 =
      computed_cadence_level now s.last_crm_response_at := by
  simp only [update_cadence_level]
  split <;> split <;> rfl

lemma computed_cadence_level_mem (now : Int) (last : Option Int) :
    computed_cadence_level now last = 1 ∨ computed_cadence_level now last = 2
      ∨ computed_cadence_level now last = 3 := by
  cases last with
  | none => exact Or.inl rfl
  | some t =>
      simp only [computed_cadence_level]
      split_ifs <;> simp

lemma stop_cadence_level (now : Int) (r : String) (s : CadenceState) :
    (stop_cadence now r s).crm_cadence_level = 3 := rfl

lemma stop_cadence_reason (now : Int) (r : String) (s : CadenceState) :
    (stop_cadence now r s).crm_stopped_reason = some r := rfl

lemma stop_cadence_user (now : Int) (r : String) (s : CadenceState) :
    (stop_cadence now r s).user_id = s.user_id := rfl

lemma update_cadence_level_cases (now : Int) (s : CadenceState) :
    (update_cadence_level now s).2 = s ∨
    (update_cadence_level now s).2 = stop_cadence now "no_response_14d"
        { s with crm_cadence_level :=
                   computed_cadence_level now s.last_crm_response_at,
                 events := s.events ++ ["cadence_level_changed"] } ∨
    ((computed_cadence_level now s.last_crm_response_at = 3 →
        ¬ (if s.crm_cadence_level = 0 then 1 else s.crm_cadence_level) < 3) ∧
     (update_cadence_level now s).2 =
        { s with crm_cadence_level :=
                   computed_cadence_level now s.last_crm_response_at,
                 events := s.events ++ ["cadence_level_changed"] }) := by
  simp only [update_cadence_level]
  by_cases hne : computed_cadence_level now s.last_crm_response_at ≠
      (if s.crm_cadence_level = 0 then 1 else s.crm_cadence_level)
  · simp only [if_pos hne]
    by_cases h3 : computed_cadence_level now s.last_crm_response_at = 3 ∧
        (if s.crm_cadence_level = 0 then 1 else s.crm_cadence_level) < 3
    · exact Or.inr (Or.inl (by simp [h3]))
    · refine Or.inr (Or.inr ⟨fun hc hl => h3 ⟨hc, hl⟩, ?_⟩)
      simp [h3]
  · simp [hne]

/-- C3: `update_cadence_level` computes the new level purely from the days
since `last_crm_response_at`: under 2 days (or never responded) gives
level 1, 2 through 13 days gives level 2, 14 or more gives level 3, and
the function returns that computed level. -/
theorem update_cadence_level_boundaries (now : Int) (s : CadenceState) :
    (s.last_crm_response_at = none → (update_cadence_level now s).1 = 1) ∧
    (∀ t, s.last_crm_response_at = some t →
      (days_since now t < 2 → (update_cadence_level now s).1 = 1) ∧
      (2 ≤ days_since now t → days_since now t ≤ 13 →
          (update_cadence_level now s).1 = 2) ∧
      (14 ≤ days_since now t → (update_cadence_level now s).1 = 3)) := by
  refine ⟨fun h => ?_, fun t h => ⟨fun hd => ?_, fun hd1 hd2 => ?_,
    fun hd => ?_⟩⟩ <;> rw [update_cadence_level_fst, h] <;>
    simp only [computed_cadence_level]
  · rw [if_neg (by omega), if_neg (by omega)]
  · rw [if_neg (by omega), if_pos (by omega)]
  · rw [if_pos (by omega)]

/-- Witness for C3 at the spec's boundary days: never responded, exactly 2
days, and exactly 14 days. -/
theorem update_cadence_level_boundaries_witness :
    (update_cadence_level 0 (init_state 1)).1 = 1 ∧
    (update_cadence_level 2880
        { init_state 1 with last_crm_response_at := some 0 }).1 = 2 ∧
    (update_cadence_level 20160
        { init_state 1 with last_crm_response_at := some 0 }).1 = 3 :=
  ⟨(update_cadence_level_boundaries 0 (init_state 1)).1 rfl,
   ((update_cadence_level_boundaries 2880
       { init_state 1 with last_crm_response_at := some 0 }).2 0 rfl).2.1
     (by decide) (by decide),
   ((update_cadence_level_boundaries 20160
       { init_state 1 with last_crm_response_at := some 0 }).2 0 rfl).2.2
     (by decide)⟩

lemma track_crm_response_fields (now : Int) (s : CadenceState) :
    (track_crm_response now s).last_crm_response_at = some now ∧
    (track_crm_response now s).crm_cadence_level = 1 ∧
    (track_crm_response now s).crm_stopped_reason = none := by
  by_cases h : 1 < s.crm_cadence_level <;> simp [track_crm_response, h]

/-- C9: every state reachable by cadence operations has level in
`{1, 2, 3}`, and level 3 always comes with a non-null stopped reason. -/
theorem cadence_invariant (s : CadenceState) (h : Reachable s) :
    (s.crm_cadence_level = 1 ∨ s.crm_cadence_level = 2 ∨
        s.crm_cadence_level = 3) ∧
    (s.crm_cadence_level = 3 → s.crm_stopped_reason ≠ none) := by
  induction h with
  | init uid =>
      exact ⟨Or.inl rfl, fun h3 => by simp [init_state] at h3⟩
  | update s now _ ih =>
      rcases update_cadence_level_cases now s with hc | hc | ⟨h3, hc⟩
      · rw [hc]; exact ih
      · rw [hc]
        exact ⟨Or.inr (Or.inr (stop_cadence_level ..)),
          fun _ => by rw [stop_cadence_reason]; simp⟩
      · rw [hc]
        refine ⟨?_, ?_⟩
        · simpa using computed_cadence_level_mem now s.last_crm_response_at
        · intro hl3
          simp only at hl3
          have hold := h3 hl3
          rcases ih.1 with h1 | h1 | h1 <;> simp [h1] at hold ⊢
          exact ih.2 h1
  | track s now _ _ =>
      refine ⟨Or.inl (track_crm_response_fields now s).2.1, fun h3 => ?_⟩
      rw [(track_crm_response_fields now s).2.1] at h3
      exact absurd h3 (by decide)
  | stop s now r _ _ =>
      exact ⟨Or.inr (Or.inr (stop_cadence_level ..)),
        fun _ => by rw [stop_cadence_reason]; simp⟩

/-- Witness for C9: the invariant at a concretely reachable state (a fresh
user stopped once). -/
theorem cadence_invariant_witness :
    ((stop_cadence 0 "manual_stop" (init_state 1)).crm_cadence_level = 1 ∨
     (stop_cadence 0 "manual_stop" (init_state 1)).crm_cadence_level = 2 ∨
     (stop_cadence 0 "manual_stop" (init_state 1)).crm_cadence_level = 3) ∧
    ((stop_cadence 0 "manual_stop" (init_state 1)).crm_cadence_level = 3 →
     (stop_cadence 0 "manual_stop" (init_state 1)).crm_stopped_reason ≠
       none) :=
  cadence_invariant (stop_cadence 0 "manual_stop" (init_state 1))
    (Reachable.stop (init_state 1) 0 "manual_stop" (Reachable.init 1))

lemma countPendingFarewell_stop (now : Int) (r : String) (s : CadenceState) :
    countPendingFarewell (stop_cadence now r s) = countPendingFarewell s + 1 := by
  unfold countPendingFarewell stop_cadence create_task
  simp only [List.countP_append, List.countP_map]
  have hfun : ∀ t : AdminTask,
      ((t.user_id == s.user_id && t.type == "FAREWELL"
          && isPendingStatus t.status) : Bool) =
      ((((if t.user_id == s.user_id && isPendingStatus t.status
              && proactive_types.contains t.type then
            { t with status := "cancelled", updated_at := now }
          else t) : AdminTask).user_id == s.user_id
        && ((if t.user_id == s.user_id && isPendingStatus t.status
              && proactive_types.contains t.type then
            { t with status := "cancelled", updated_at := now }
          else t) : AdminTask).type == "FAREWELL"
        && isPendingStatus ((if t.user_id == s.user_id
              && isPendingStatus t.status
              && proactive_types.contains t.type then
            { t with status := "cancelled", updated_at := now }
          else t) : AdminTask).status) : Bool) := by
    intro t
    by_cases hc : (t.user_id == s.user_id && isPendingStatus t.status
        && proactive_types.contains t.type : Bool) = true
    · simp only [hc, if_pos]
      have htype : (t.type == "FAREWELL") = false := by
        simp only [Bool.and_eq_true, beq_iff_eq] at hc
        rcases hc with ⟨-, hmem⟩
        have hmem' : t.type ∈ proactive_types := by simpa using hmem
        have hne : t.type ≠ "FAREWELL" := by
          intro he
          rw [he] at hmem'
          exact absurd hmem' (by decide)
        simpa using hne
      simp [htype, isPendingStatus]
    · simp only [Bool.not_eq_true] at hc
      simp only [hc]
      simp
  have hrw : (fun t : AdminTask =>
      ((((if t.user_id == s.user_id && isPendingStatus t.status
              && proactive_types.contains t.type then
            { t with status := "cancelled", updated_at := now }
          else t) : AdminTask).user_id == s.user_id
        && ((if t.user_id == s.user_id && isPendingStatus t.status
              && proactive_types.contains t.type then
            { t with status := "cancelled", updated_at := now }
          else t) : AdminTask).type == "FAREWELL"
        && isPendingStatus ((if t.user_id == s.user_id
              && isPendingStatus t.status
              && proactive_types.contains t.type then
            { t with status := "cancelled", updated_at := now }
          else t) : AdminTask).status) : Bool)) =
      (fun t : AdminTask =>
        (t.user_id == s.user_id && t.type == "FAREWELL"
          && isPendingStatus t.status : Bool)) :=
    funext fun t => (hfun t).symm
  simp only [Function.comp_def]
  rw [hrw]
  simp [isPendingStatus]

lemma stop_cadence_no_pending_proactive (now : Int) (r : String)
    (s : CadenceState) :
    ∀ t ∈ (stop_cadence now r s).tasks, t.user_id = s.user_id →
      proactive_types.contains t.type = true →
      isPendingStatus t.status = false := by
  unfold stop_cadence create_task
  simp only [List.mem_append, List.mem_map, List.mem_singleton]
  rintro t (⟨t0, ht0, rfl⟩ | rfl) hu hp
  · by_cases hc : (t0.user_id == s.user_id && isPendingStatus t0.status
        && proactive_types.contains t0.type : Bool) = true
    · simp only [hc, if_pos]
      simp [isPendingStatus]
    · simp only [Bool.not_eq_true] at hc
      simp only [hc] at hu hp ⊢
      rw [if_neg Bool.false_ne_true] at hu hp ⊢
      by_contra hpend
      rw [Bool.not_eq_false] at hpend
      have hmem : t0.type ∈ proactive_types := by simpa using hp
      have hcond : (t0.user_id == s.user_id && isPendingStatus t0.status
          && proactive_types.contains t0.type : Bool) = true := by
        simp [hu, hpend, hmem]
      rw [hcond] at hc
      exact absurd hc (by simp)
  · have hmem : ("FAREWELL" : String) ∈ proactive_types := by simpa using hp
    exact absurd hmem (by decide)

/-- C2 counterexample: two consecutive `stop_cadence` calls on a fresh user
leave two pending FAREWELL tasks, not one — farewell creation is not
deduplicated across repeated calls. -/
theorem stop_cadence_twice_counterexample :
    countPendingFarewell (stop_cadence 60 "manual_stop"
        (stop_cadence 0 "manual_stop" (init_state 1))) = 2 := by decide

/-- C2 (amended): calling `stop_cadence` twice with the same reason ends at
level 3 with that reason and no pending proactive-type task, but with two
more pending FAREWELL tasks than before — one per invocation — because
nothing guards the farewell against duplication. -/
theorem stop_cadence_twice_spec (s : CadenceState) (now1 now2 : Int)
    (r : String) :
    (stop_cadence now2 r (stop_cadence now1 r s)).crm_cadence_level = 3 ∧
    (stop_cadence now2 r (stop_cadence now1 r s)).crm_stopped_reason =
      some r ∧
    (∀ t ∈ (stop_cadence now2 r (stop_cadence now1 r s)).tasks,
        t.user_id = s.user_id → proactive_types.contains t.type = true →
        isPendingStatus t.status = false) ∧
    countPendingFarewell (stop_cadence now2 r (stop_cadence now1 r s)) =
      countPendingFarewell s + 2 := by
  refine ⟨rfl, rfl, ?_, ?_⟩
  · intro t ht hu hp
    exact stop_cadence_no_pending_proactive now2 r (stop_cadence now1 r s)
      t ht hu hp
  · rw [countPendingFarewell_stop, countPendingFarewell_stop]

/-- Witness for C2 (amended) on a fresh user. -/
theorem stop_cadence_twice_spec_witness :
    countPendingFarewell (stop_cadence 5 "manual_stop"
        (stop_cadence 0 "manual_stop" (init_state 2))) =
      countPendingFarewell (init_state 2) + 2 :=
  (stop_cadence_twice_spec (init_state 2) 0 5 "manual_stop").2.2.2

lemma track_crm_response_events (now : Int) (s : CadenceState) :
    (1 < s.crm_cadence_level →
      (track_crm_response now s).events =
        s.events ++ ["cadence_level_restored"]) ∧
    (s.crm_cadence_level ≤ 1 → (track_crm_response now s).events = s.events)
    := by
  by_cases h : 1 < s.crm_cadence_level
  · exact ⟨fun _ => by simp [track_crm_response, h],
      fun h' => absurd h (by omega)⟩
  · exact ⟨fun h' => absurd h' h, fun _ => by simp [track_crm_response, h]⟩

lemma track_no_pending_farewell (now : Int) (s : CadenceState)
    (h : 1 < s.crm_cadence_level) :
    countPendingFarewell (track_crm_response now s) = 0 := by
  unfold countPendingFarewell track_crm_response
  simp only [if_pos h, List.countP_map]
  rw [show (0 : Nat) = List.countP (fun _ => false) s.tasks by
    simp [List.countP_eq_zero]]
  congr 1
  funext t
  simp only [Function.comp_def]
  by_cases hc : (t.user_id == s.user_id
      && (t.status == "scheduled" || t.status == "due"
          || t.status == "pending")
      && t.type == "FAREWELL" : Bool) = true
  · simp [hc, isPendingStatus]
  · simp only [Bool.not_eq_true] at hc
    simp only [hc]
    rw [if_neg Bool.false_ne_true]
    simp only [Bool.and_eq_true, beq_iff_eq, isPendingStatus,
      Bool.or_eq_true, Bool.and_eq_false_iff] at hc ⊢
    rcases hc with (hc | hc) | hc
    · exact Or.inl (Or.inl hc)
    · simp only [Bool.or_eq_false_iff] at hc
      exact Or.inr (by simp [hc.1.1, hc.1.2])
    · exact Or.inl (Or.inr hc)

/-- C7 counterexample: a level-1 state with a pending FAREWELL task is
reachable (stop, then update with no recorded response drops the level
back to 1 without touching the farewell); on it, `track_crm_response`
leaves the farewell pending instead of cancelling it. -/
theorem track_crm_response_counterexample :
    (update_cadence_level 100
        (stop_cadence 0 "manual_stop" (init_state 1))).2.crm_cadence_level
      = 1 ∧
    countPendingFarewell (track_crm_response 200
      (update_cadence_level 100
        (stop_cadence 0 "manual_stop" (init_state 1))).2) = 1 := by decide

/-- C7 (amended): `track_crm_response` sets `last_crm_response_at = now`,
forces level 1 and clears the stopped reason; when the prior level was
above 1 it cancels every pending FAREWELL task and emits the
`cadence_level_restored` event, and when the prior level was 1 it emits no
event (and leaves any stray pending farewell untouched). -/
theorem track_crm_response_spec (now : Int) (s : CadenceState) :
    (track_crm_response now s).last_crm_response_at = some now ∧
    (track_crm_response now s).crm_cadence_level = 1 ∧
    (track_crm_response now s).crm_stopped_reason = none ∧
    (1 < s.crm_cadence_level →
        countPendingFarewell (track_crm_response now s) = 0 ∧
        (track_crm_response now s).events =
          s.events ++ ["cadence_level_restored"]) ∧
    (s.crm_cadence_level ≤ 1 →
        (track_crm_response now s).events = s.events) :=
  ⟨(track_crm_response_fields now s).1,
   (track_crm_response_fields now s).2.1,
   (track_crm_response_fields now s).2.2,
   fun h => ⟨track_no_pending_farewell now s h,
     (track_crm_response_events now s).1 h⟩,
   (track_crm_response_events now s).2⟩

/-- Witness for C7 (amended): on a freshly stopped user (level 3), the
response tracker cancels the pending farewell. -/
theorem track_crm_response_spec_witness :
    countPendingFarewell (track_crm_response 5
        (stop_cadence 0 "manual_stop" (init_state 3))) = 0 :=
  ((track_crm_response_spec 5
      (stop_cadence 0 "manual_stop" (init_state 3))).2.2.2.1 (by decide)).1

/-! ## C5: reschedule-on-reply -/

/-- C5: the reschedule-on-reply operation touches exactly the user's
scheduled/due tasks of the given types with `now < due_at ≤ now + horizon`,
setting their `due_at` to now plus the user's `postpone_on_reply` delay
(the fetched cadence value, with a missing row or stored 0 defaulting to
24h), returns the number updated, and leaves every already-due or terminal
task completely unchanged. -/
theorem reschedule_upcoming_tasks_spec (postpone_fetch : Option Nat)
    (now : Int) (user_id : Nat) (task_types : List String)
    (hours_ahead : Nat) (tasks : List AdminTask) :
    ∃ f : AdminTask → AdminTask,
      (reschedule_upcoming_tasks postpone_fetch now user_id task_types
          hours_ahead tasks).1 = tasks.map f ∧
      (∀ t, reschedule_matches user_id task_types hours_ahead now t = true →
          f t = { t with
                    due_at := now +
                      postpone_or_default postpone_fetch * 60,
                    updated_at := now }) ∧
      (postpone_fetch = none → postpone_or_default postpone_fetch = 24) ∧
      (∀ n, 0 < n → postpone_fetch = some n →
          postpone_or_default postpone_fetch = n) ∧
      (∀ t, reschedule_matches user_id task_types hours_ahead now t = false →
          f t = t) ∧
      (∀ t, t.due_at ≤ now → f t = t) ∧
      (∀ t, isPendingStatus t.status = false → f t = t) ∧
      (reschedule_upcoming_tasks postpone_fetch now user_id task_types
          hours_ahead tasks).2 =
        tasks.countP (reschedule_matches user_id task_types hours_ahead now)
    := by
  refine ⟨fun t =>
    if reschedule_matches user_id task_types hours_ahead now t then
      { t with
          due_at := now + postpone_or_default postpone_fetch * 60,
          updated_at := now }
    else t, rfl, ?_, ?_, ?_, ?_, ?_, ?_, rfl⟩
  · intro t ht
    simp [ht]
  · intro h
    rw [h]
    rfl
  · intro n hn h
    rw [h]
    match n, hn with
    | Nat.succ m, _ => rfl
  · intro t ht
    simp [ht]
  · intro t ht
    have hm : reschedule_matches user_id task_types hours_ahead now t
        = false := by
      unfold reschedule_matches
      have hlt : decide (now < t.due_at) = false := by
        simp only [decide_eq_false_iff_not, not_lt]
        exact ht
      simp [hlt]
    simp [hm]
  · intro t ht
    have hm : reschedule_matches user_id task_types hours_ahead now t
        = false := by
      unfold reschedule_matches
      simp [ht]
    simp [hm]

/-- Witness for C5: with a configured 6-hour delay a future in-horizon
PING is pushed to now + 6h; with no cadence row it is pushed to now + 24h;
an already-due task is untouched. -/
theorem reschedule_upcoming_tasks_spec_witness :
    (reschedule_upcoming_tasks (some 6) 1000 7 ["PING"] 48
      [{ id := 1, user_id := 7, type := "PING", status := "scheduled",
         due_at := 1500, updated_at := 0 }]).1 =
      [{ id := 1, user_id := 7, type := "PING", status := "scheduled",
         due_at := 1000 + 6 * 60, updated_at := 1000 }] ∧
    (reschedule_upcoming_tasks none 1000 7 ["PING"] 48
      [{ id := 1, user_id := 7, type := "PING", status := "scheduled",
         due_at := 1500, updated_at := 0 },
       { id := 3, user_id := 7, type := "PING", status := "due",
         due_at := 900, updated_at := 0 }]).1 =
      [{ id := 1, user_id := 7, type := "PING", status := "scheduled",
         due_at := 1000 + 24 * 60, updated_at := 1000 },
       { id := 3, user_id := 7, type := "PING", status := "due",
         due_at := 900, updated_at := 0 }] := by
  constructor
  · obtain ⟨f, hmap, hpos, hdef, hconf, hneg, hdue, hterm, hcount⟩ :=
      reschedule_upcoming_tasks_spec (some 6) 1000 7 ["PING"] 48
        [{ id := 1, user_id := 7, type := "PING", status := "scheduled",
           due_at := 1500, updated_at := 0 }]
    rw [hmap, List.map_cons, List.map_nil,
      hpos ({ id := 1, user_id := 7, type := "PING", status := "scheduled", due_at := 1500, updated_at := 0 }) (by decide),
      hconf 6 (by decide) rfl]
    decide
  · obtain ⟨f, hmap, hpos, hdef, hconf, hneg, hdue, hterm, hcount⟩ :=
      reschedule_upcoming_tasks_spec none 1000 7 ["PING"] 48
        [{ id := 1, user_id := 7, type := "PING", status := "scheduled",
           due_at := 1500, updated_at := 0 },
         { id := 3, user_id := 7, type := "PING", status := "due",
           due_at := 900, updated_at := 0 }]
    rw [hmap, List.map_cons, List.map_cons, List.map_nil,
      hpos ({ id := 1, user_id := 7, type := "PING", status := "scheduled", due_at := 1500, updated_at := 0 }) (by decide),
      hdue ({ id := 3, user_id := 7, type := "PING", status := "due", due_at := 900, updated_at := 0 }) (by decide),
      hdef rfl]
    decide

/-! ## C6: the due-task fetch -/

lemma mem_insertByDue (p q : AdminTask × UserRow)
    (l : List (AdminTask × UserRow)) :
    q ∈ insertByDue p l ↔ q = p ∨ q ∈ l := by
  induction l with
  | nil => simp [insertByDue]
  | cons a rest ih =>
      unfold insertByDue
      split
      · simp
      · simp only [List.mem_cons, ih]
        tauto

lemma sorted_insertByDue (p : AdminTask × UserRow)
    (l : List (AdminTask × UserRow))
    (h : l.Pairwise (fun a b => a.1.due_at ≤ b.1.due_at)) :
    (insertByDue p l).Pairwise (fun a b => a.1.due_at ≤ b.1.due_at) := by
  induction l with
  | nil => simp [insertByDue]
  | cons a rest ih =>
      unfold insertByDue
      split
      · refine List.Pairwise.cons ?_ h
        intro q hq
        rcases List.mem_cons.mp hq with rfl | hq
        · assumption
        · exact le_trans (by assumption) (List.rel_of_pairwise_cons h hq)
      · refine List.Pairwise.cons ?_ (ih (List.Pairwise.of_cons h))
        intro q hq
        rcases (mem_insertByDue p q rest).mp hq with rfl | hq
        · omega
        · exact List.rel_of_pairwise_cons h hq

lemma mem_sortByDue (q : AdminTask × UserRow)
    (l : List (AdminTask × UserRow)) : q ∈ sortByDue l ↔ q ∈ l := by
  induction l with
  | nil => simp [sortByDue]
  | cons a rest ih =>
      unfold sortByDue
      rw [mem_insertByDue, ih]
      simp

lemma sorted_sortByDue (l : List (AdminTask × UserRow)) :
    (sortByDue l).Pairwise (fun a b => a.1.due_at ≤ b.1.due_at) := by
  induction l with
  | nil => simp [sortByDue]
  | cons a rest ih => exact sorted_insertByDue a (sortByDue rest) ih

/-- C6: the due-task fetch returns at most `limit` rows; every returned row
is a scheduled/due task, already due (`due_at ≤ now`, so a task due at the
current instant is eligible), joined with its own non-blocked user; and
the rows are ordered by `due_at` ascending. -/
theorem get_due_tasks_spec (limit : Nat) (now : Int)
    (tasks : List AdminTask) (users : List UserRow) :
    (get_due_tasks limit now tasks users).length ≤ limit ∧
    (∀ p ∈ get_due_tasks limit now tasks users,
        (p.1.status = "scheduled" ∨ p.1.status = "due") ∧
        p.1.due_at ≤ now ∧ p.2.is_blocked = false ∧
        p.1 ∈ tasks ∧ p.2 ∈ users ∧ p.2.id = p.1.user_id) ∧
    (get_due_tasks limit now tasks users).Pairwise
      (fun a b => a.1.due_at ≤ b.1.due_at) ∧
    (∀ t : AdminTask, ∀ u : UserRow,
        (t.status = "scheduled" ∨ t.status = "due") → t.due_at = now →
        u.is_blocked = false → due_eligible now (t, u) = true) := by
  refine ⟨List.length_take_le _ _, ?_, ?_, ?_⟩
  · intro p hp
    have hp1 : p ∈ sortByDue ((tasks.flatMap (fun t =>
        (users.filter (fun u => u.id == t.user_id)).map (fun u => (t, u))))
          |>.filter (due_eligible now)) := List.take_subset _ _ hp
    rw [mem_sortByDue] at hp1
    have hp2 := List.mem_filter.mp hp1
    obtain ⟨t0, ht0, hp3⟩ := List.mem_flatMap.mp hp2.1
    obtain ⟨u0, hu0, hp4⟩ := List.mem_map.mp hp3
    have hu0' := List.mem_filter.mp hu0
    have helig := hp2.2
    rw [← hp4] at helig ⊢
    simp only [due_eligible, Bool.and_eq_true, beq_iff_eq, isPendingStatus,
      Bool.or_eq_true] at helig
    refine ⟨helig.1.1, by simpa using helig.1.2, by simpa using helig.2,
      ht0, hu0'.1, by simpa using hu0'.2⟩
  · exact (sorted_sortByDue _).sublist (List.take_sublist _ _)
  · intro t u hst hdue hub
    simp [due_eligible, isPendingStatus, hst, hdue, hub]

/-- Witness for C6 at a concrete store: three tasks of one live user and
one of a blocked user. -/
theorem get_due_tasks_spec_witness :
    (get_due_tasks 2 100
      [{ id := 1, user_id := 7, type := "PING", status := "scheduled",
         due_at := 100, updated_at := 0 },
       { id := 2, user_id := 7, type := "PING", status := "scheduled",
         due_at := 50, updated_at := 0 },
       { id := 4, user_id := 8, type := "PING", status := "scheduled",
         due_at := 10, updated_at := 0 }]
      [{ id := 7, tg_user_id := 70, is_blocked := false },
       { id := 8, tg_user_id := 80, is_blocked := true }]).length ≤ 2 :=
  (get_due_tasks_spec 2 100
    [{ id := 1, user_id := 7, type := "PING", status := "scheduled",
       due_at := 100, updated_at := 0 },
     { id := 2, user_id := 7, type := "PING", status := "scheduled",
       due_at := 50, updated_at := 0 },
     { id := 4, user_id := 8, type := "PING", status := "scheduled",
       due_at := 10, updated_at := 0 }]
    [{ id := 7, tg_user_id := 70, is_blocked := false },
     { id := 8, tg_user_id := 80, is_blocked := true }]).1

/-! ## C1 and C8: the dispatcher -/

/-- C1: for a due task whose delivery raises, a blocked/forbidden/
deactivated keyword in the error text (case-insensitive) makes the
dispatcher block the user, fail the task with code `blocked`, and count it
in the `blocked` counter; any other error fails the task with a generic
`send_error` code and counts it in `failed`.  Each task in a dispatch
batch is processed exactly once with exactly one delivery attempt — a
failed task is terminal within the invocation. -/
theorem dispatcher_failure_classification (wrap : String → String)
    (gen : String → Except String String)
    (send : Nat → String → Option String) :
    (∀ task : TaskRow, ∀ e : String,
      send task.tg_user_id (getTaskMessage wrap gen task.type) = some e →
      (isBlockedError e = true →
        processTask wrap gen send task =
          { outcome := "blocked",
            attempts := [(task.id, task.tg_user_id,
              getTaskMessage wrap gen task.type)],
            taskStatus := "failed", resultCode := some "blocked",
            setUserBlocked := true }) ∧
      (isBlockedError e = false →
        processTask wrap gen send task =
          { outcome := "failed",
            attempts := [(task.id, task.tg_user_id,
              getTaskMessage wrap gen task.type)],
            taskStatus := "failed",
            resultCode := some ("send_error: " ++ e),
            setUserBlocked := false })) ∧
    (∀ task : TaskRow,
      (processTask wrap gen send task).attempts.length = 1) ∧
    (∀ tasks : List TaskRow,
      (dispatch_due_tasks wrap gen send tasks).2 =
        tasks.map (processTask wrap gen send) ∧
      (dispatch_due_tasks wrap gen send tasks).1.blocked =
        tasks.countP (fun t =>
          match send t.tg_user_id (getTaskMessage wrap gen t.type) with
          | some e => isBlockedError e
          | none => false) ∧
      (dispatch_due_tasks wrap gen send tasks).1.failed =
        tasks.countP (fun t =>
          match send t.tg_user_id (getTaskMessage wrap gen t.type) with
          | some e => !isBlockedError e
          | none => false)) := by
  refine ⟨?_, ?_, ?_⟩
  · intro task e hs
    refine ⟨fun hb => ?_, fun hb => ?_⟩
    · simp only [processTask]
      rw [hs]
      simp [hb]
    · simp only [processTask]
      rw [hs]
      simp [hb]
  · intro task
    simp only [processTask]
    cases send task.tg_user_id (getTaskMessage wrap gen task.type) with
    | none => rfl
    | some e =>
        dsimp only
        split <;> rfl
  · intro tasks
    refine ⟨rfl, ?_, ?_⟩
    · show (tasks.map (processTask wrap gen send)).countP
          (fun x => x.outcome == "blocked") = _
      rw [List.countP_map]
      congr 1
      funext t
      simp only [Function.comp_def]
      simp only [processTask]
      cases hsend : send t.tg_user_id (getTaskMessage wrap gen t.type) with
      | none => rfl
      | some e =>
          dsimp only
          split <;> simp_all
    · show (tasks.map (processTask wrap gen send)).countP
          (fun x => x.outcome == "failed") = _
      rw [List.countP_map]
      congr 1
      funext t
      simp only [Function.comp_def]
      simp only [processTask]
      cases hsend : send t.tg_user_id (getTaskMessage wrap gen t.type) with
      | none => rfl
      | some e =>
          dsimp only
          split <;> simp_all

/-- Witness for C1 on the spec's own example error text
"Forbidden: bot was blocked by the user", and on a transient timeout. -/
theorem dispatcher_failure_classification_witness :
    processTask (fun m => m) (fun _ => Except.ok "hi")
      (fun _ _ => some "Forbidden: bot was blocked by the user")
      { id := 1, user_id := 7, tg_user_id := 70, type := "PING" } =
      { outcome := "blocked", attempts := [(1, 70, "hi")],
        taskStatus := "failed", resultCode := some "blocked",
        setUserBlocked := true } ∧
    processTask (fun m => m) (fun _ => Except.ok "hi")
      (fun _ _ => some "Timed out")
      { id := 1, user_id := 7, tg_user_id := 70, type := "PING" } =
      { outcome := "failed", attempts := [(1, 70, "hi")],
        taskStatus := "failed", resultCode := some "send_error: Timed out",
        setUserBlocked := false } :=
  ⟨((dispatcher_failure_classification (fun m => m) (fun _ => Except.ok "hi")
      (fun _ _ => some "Forbidden: bot was blocked by the user")).1
      ({ id := 1, user_id := 7, tg_user_id := 70, type := "PING" })
      "Forbidden: bot was blocked by the user" rfl).1 (by decide),
   ((dispatcher_failure_classification (fun m => m) (fun _ => Except.ok "hi")
      (fun _ _ => some "Timed out")).1
      ({ id := 1, user_id := 7, tg_user_id := 70, type := "PING" })
      "Timed out" rfl).2 (by decide)⟩

/-- C8: when message generation fails, the dispatcher substitutes the
persona-wrapped generic apology, still attempts delivery with exactly that
fallback text, marks the task sent if the delivery succeeds (a generation
failure alone never fails the task), and the batch still processes every
task. -/
theorem generation_failure_fallback (wrap : String → String)
    (gen : String → Except String String)
    (send : Nat → String → Option String) (task : TaskRow) (e : String)
    (hg : gen task.type = Except.error e) :
    getTaskMessage wrap gen task.type = wrap fallbackText ∧
    (processTask wrap gen send task).attempts =
      [(task.id, task.tg_user_id, wrap fallbackText)] ∧
    (send task.tg_user_id (wrap fallbackText) = none →
      (processTask wrap gen send task).taskStatus = "sent" ∧
      (processTask wrap gen send task).outcome = "sent") ∧
    (∀ tasks : List TaskRow,
      ((dispatch_due_tasks wrap gen send tasks).2).length = tasks.length)
    := by
  have hmsg : getTaskMessage wrap gen task.type = wrap fallbackText := by
    unfold getTaskMessage
    rw [hg]
  refine ⟨hmsg, ?_, fun hok => ?_, fun tasks => by
    simp [dispatch_due_tasks]⟩
  · simp only [processTask]
    rw [hmsg]
    cases send task.tg_user_id (wrap fallbackText) with
    | none => rfl
    | some e2 =>
        dsimp only
        split <;> rfl
  · simp only [processTask]
    rw [hmsg, hok]
    exact ⟨rfl, rfl⟩

/-- Witness for C8: a failing generator plus a successful delivery yields a
sent task carrying the wrapped apology. -/
theorem generation_failure_fallback_witness :
    getTaskMessage (fun m => String.append "[wrapped] " m)
      (fun _ => Except.error "model down") "PING" =
      String.append "[wrapped] " fallbackText ∧
    (processTask (fun m => String.append "[wrapped] " m)
      (fun _ => Except.error "model down") (fun _ _ => none)
      { id := 2, user_id := 7, tg_user_id := 70, type := "PING" }).attempts
      = [(2, 70, String.append "[wrapped] " fallbackText)] :=
  ⟨(generation_failure_fallback (fun m => String.append "[wrapped] " m)
      (fun _ => Except.error "model down") (fun _ _ => none)
      ({ id := 2, user_id := 7, tg_user_id := 70, type := "PING" })
      "model down" rfl).1,
   (generation_failure_fallback (fun m => String.append "[wrapped] " m)
      (fun _ => Except.error "model down") (fun _ _ => none)
      ({ id := 2, user_id := 7, tg_user_id := 70, type := "PING" })
      "model down" rfl).2.1⟩

/-! ## C4: planner selection bounds -/

lemma pick_mem (oracle : List String → Nat) (a : String)
    (rest : List String) : pick oracle a rest ∈ a :: rest :=
  List.get_mem _ _ _

lemma selectLoop_spec (oracle : List String → Nat) (P : String → Prop) :
    ∀ (n : Nat) (available selected : List String),
      (∀ x ∈ available, P x) → (∀ x ∈ selected, P x) → selected.Nodup →
      (∀ x ∈ selectLoop oracle n available selected, P x) ∧
      (selectLoop oracle n available selected).Nodup ∧
      (selectLoop oracle n available selected).length ≤ selected.length + n
    := by
  intro n
  induction n with
  | zero =>
      intro av sel hav hsel hnd
      exact ⟨hsel, hnd, by simp [selectLoop]⟩
  | succ n ih =>
      intro av sel hav hsel hnd
      cases av with
      | nil => exact ⟨hsel, hnd, by simp only [selectLoop]; omega⟩
      | cons a rest =>
          simp only [selectLoop]
          by_cases hmem : (sel.contains (pick oracle a rest) : Bool) = true
          · simp only [hmem, if_true]
            have h := ih ((a :: rest).filter
                (fun x => x ≠ pick oracle a rest)) sel
              (fun x hx => hav x (List.mem_of_mem_filter hx)) hsel hnd
            exact ⟨h.1, h.2.1, by omega⟩
          · simp only [hmem, Bool.false_eq_true, if_false]
            have hnotm : pick oracle a rest ∉ sel := by
              intro hin
              exact hmem (by simpa using hin)
            have h := ih ((a :: rest).filter
                (fun x => x ≠ pick oracle a rest))
              (sel ++ [pick oracle a rest])
              (fun x hx => hav x (List.mem_of_mem_filter hx))
              (fun x hx => by
                rcases List.mem_append.mp hx with hx | hx
                · exact hsel x hx
                · rw [List.mem_singleton.mp hx]
                  exact hav _ (pick_mem oracle a rest))
              (by simp [List.nodup_append, hnd, hnotm])
            refine ⟨h.1, h.2.1, ?_⟩
            have := h.2.2
            simp only [List.length_append, List.length_singleton] at this
            omega

lemma select_tasks_spec (oracle : List String → Nat)
    (candidates : List String) (max_tasks : Nat) :
    (∀ x ∈ select_tasks oracle candidates max_tasks, x ∈ candidates) ∧
    (select_tasks oracle candidates max_tasks).Nodup ∧
    (select_tasks oracle candidates max_tasks).length ≤
      min max_tasks candidates.dedup.length := by
  unfold select_tasks
  split
  · simp
  · have h := selectLoop_spec oracle (· ∈ candidates)
      (min max_tasks candidates.dedup.length)
      (candidates.flatMap (fun t => List.replicate (priority_weight t) t))
      []
      (fun x hx => by
        obtain ⟨c, hc, hx⟩ := List.mem_flatMap.mp hx
        rw [List.eq_of_mem_replicate hx]
        exact hc)
      (by simp) (by simp)
    exact ⟨h.1, h.2.1, by simpa using h.2.2⟩

lemma createLoop_sublist (calcDue : Nat → Except String Int) :
    ∀ (l : List String) (i : Nat),
      ((createLoop calcDue l i).1.map Prod.fst).Sublist l := by
  intro l
  induction l with
  | nil => intro i; simp [createLoop]
  | cons t rest ih =>
      intro i
      simp only [createLoop]
      cases calcDue i with
      | error e => simp
      | ok d =>
          simp only [List.map_cons]
          exact List.Sublist.cons₂ t (ih (i + 1))

/-- C4: a planner invocation creates at most
`min(remaining_slots, distinct candidate types)` tasks, all of
pairwise-distinct types drawn from the candidate list, and creates nothing
when no slots remain or proactive contact is not enabled. -/
theorem plan_for_user_bounds (oracle : List String → Nat)
    (calcDue : Nat → Except String Int) (prefs : UserPrefsRow)
    (contacts_today : Nat) (candidates : List String) :
    (plan_for_user oracle calcDue prefs contacts_today
        candidates).1.length ≤
      min (prefs.max_contacts_per_day - contacts_today)
        candidates.dedup.length ∧
    ((plan_for_user oracle calcDue prefs contacts_today
        candidates).1.map Prod.fst).Nodup ∧
    (∀ p ∈ (plan_for_user oracle calcDue prefs contacts_today
        candidates).1, p.1 ∈ candidates) ∧
    (prefs.max_contacts_per_day - contacts_today = 0 →
      plan_for_user oracle calcDue prefs contacts_today candidates
        = ([], 0)) ∧
    (prefs.allow_proactive ≠ some true →
      plan_for_user oracle calcDue prefs contacts_today candidates
        = ([], 0)) := by
  by_cases hallow : prefs.allow_proactive ≠ some true
  · rw [show plan_for_user oracle calcDue prefs contacts_today candidates
        = ([], 0) from by simp [plan_for_user, hallow]]
    simp
  · by_cases hrem : prefs.max_contacts_per_day - contacts_today = 0
    · rw [show plan_for_user oracle calcDue prefs contacts_today candidates
          = ([], 0) from by simp [plan_for_user, hallow, hrem]]
      simp [hrem]
    · have hplan : (plan_for_user oracle calcDue prefs contacts_today
          candidates).1 =
          (createLoop calcDue (select_tasks oracle candidates
            (prefs.max_contacts_per_day - contacts_today)) 0).1 := by
        simp [plan_for_user, hallow, hrem]
      have hsel := select_tasks_spec oracle candidates
        (prefs.max_contacts_per_day - contacts_today)
      have hsub := createLoop_sublist calcDue
        (select_tasks oracle candidates
          (prefs.max_contacts_per_day - contacts_today)) 0
      refine ⟨?_, ?_, ?_, fun h => absurd h hrem, fun h => absurd h hallow⟩
      · rw [hplan]
        calc (createLoop calcDue (select_tasks oracle candidates
              (prefs.max_contacts_per_day - contacts_today)) 0).1.length
            = ((createLoop calcDue (select_tasks oracle candidates
                (prefs.max_contacts_per_day - contacts_today)) 0).1.map
                  Prod.fst).length := by simp
          _ ≤ (select_tasks oracle candidates
                (prefs.max_contacts_per_day - contacts_today)).length :=
              hsub.length_le
          _ ≤ _ := hsel.2.2
      · rw [hplan]
        exact hsel.2.1.sublist hsub
      · rw [hplan]
        intro p hp
        exact hsel.1 _ (hsub.subset (List.mem_map_of_mem Prod.fst hp))

/-- Witness for C4: two candidates, one remaining slot. -/
theorem plan_for_user_bounds_witness :
    (plan_for_user (fun _ => 0) (fun _ => Except.ok 555)
      { allow_proactive := some true, max_contacts_per_day := 2,
        quiet_start := 1320, quiet_end := 480 } 1
      ["PING", "RECOVERY"]).1.length ≤
      min (2 - 1) (["PING", "RECOVERY"].dedup.length) :=
  (plan_for_user_bounds (fun _ => 0) (fun _ => Except.ok 555)
    { allow_proactive := some true, max_contacts_per_day := 2,
      quiet_start := 1320, quiet_end := 480 } 1 ["PING", "RECOVERY"]).1

/-! ## C10: time-slot computation and the three-window assumption -/

lemma randint_ok (r : Nat) (a b : Int) (h : a ≤ b) :
    ∃ v, randint r a b = Except.ok v ∧ a ≤ v ∧ v ≤ b := by
  refine ⟨a + (r : Int) % (b - a + 1), by simp [randint, h], ?_, ?_⟩
  · have := Int.emod_nonneg (r : Int) (by omega : (b - a + 1) ≠ 0)
    omega
  · have := Int.emod_lt_of_pos (r : Int) (by omega : (0 : Int) < b - a + 1)
    omega

lemma lookupWindow_mem (name : String)
    (l : List (String × Int × Int)) (h : name ∈ l.map Prod.fst) :
    ∃ se, lookupWindow name l = some se ∧ (name, se) ∈ l := by
  induction l with
  | nil => simp at h
  | cons a rest ih =>
      obtain ⟨k, se⟩ := a
      by_cases he : k = name
      · subst he
        exact ⟨se, by simp [lookupWindow], by simp⟩
      · have hb : (k == name) = false := by simp [he]
        simp only [List.map_cons, List.mem_cons] at h
        rcases h with h | h
        · exact absurd h.symm he
        · obtain ⟨se2, hl, hm⟩ := ih h
          refine ⟨se2, ?_, List.mem_cons_of_mem _ hm⟩
          simp only [lookupWindow, hb, Bool.false_eq_true, if_false]
          exact hl

lemma choicesPick_ok (r : Nat) (population : List String)
    (weights : List ℚ) (hlen : population.length = weights.length)
    (hne : population ≠ []) (hsum : 0 < weights.sum) :
    ∃ name, choicesPick r population weights = Except.ok name ∧
      name ∈ population := by
  unfold choicesPick
  rw [dif_pos ⟨hlen, hne, hsum⟩]
  exact ⟨_, rfl, List.get_mem _ _ _⟩

lemma choicesPick_error (r : Nat) (population : List String)
    (weights : List ℚ)
    (h : ¬(population.length = weights.length ∧ population ≠ []
        ∧ 0 < weights.sum)) :
    ∃ e, choicesPick r population weights = Except.error e := by
  unfold choicesPick
  rw [dif_neg h]
  exact ⟨_, rfl⟩

lemma plan_for_user_all_error (oracle : List String → Nat)
    (calcDue : Nat → Except String Int) (prefs : UserPrefsRow)
    (contacts_today : Nat) (candidates : List String)
    (h : ∀ i, ∃ e, calcDue i = Except.error e) :
    plan_for_user oracle calcDue prefs contacts_today candidates
      = ([], 0) := by
  unfold plan_for_user
  by_cases hallow : prefs.allow_proactive ≠ some true
  · simp [hallow]
  · by_cases hrem : prefs.max_contacts_per_day - contacts_today = 0
    · simp [hallow, hrem]
    · simp only [hallow, hrem, if_neg, if_false]
      cases hsel : select_tasks oracle candidates
          (prefs.max_contacts_per_day - contacts_today) with
      | nil => simp [createLoop]
      | cons t rest =>
          obtain ⟨e, he⟩ := h 0
          simp [createLoop, he]

/-- C10 counterexample: a prefers-windows map with exactly three windows on
which the time-slot computation still raises — the window drawn is the
degenerate `[9, 9)`, so the hour draw `randint(9, 8)` has an empty range.
The planner then swallows the error and creates nothing. -/
theorem calculate_due_time_counterexample :
    calculate_due_time 0 0 0 0
      { allow_proactive := some true, max_contacts_per_day := 3,
        quiet_start := 1320, quiet_end := 480 }
      [("morning", (9, 9)), ("day", (12, 17)), ("evening", (17, 21))]
      10000 = Except.error "empty range for randrange" ∧
    plan_for_user (fun _ => 0)
      (fun _ => calculate_due_time 0 0 0 0
        { allow_proactive := some true, max_contacts_per_day := 3,
          quiet_start := 1320, quiet_end := 480 }
        [("morning", (9, 9)), ("day", (12, 17)), ("evening", (17, 21))]
        10000)
      { allow_proactive := some true, max_contacts_per_day := 3,
        quiet_start := 1320, quiet_end := 480 }
      0 ["PING"] = ([], 0) := by
  have hcp : choicesPick 0 ["morning", "day", "evening"] window_weights
      = Except.ok "morning" := by
    unfold choicesPick
    rw [dif_pos ⟨by simp [window_weights], by simp,
      by norm_num [window_weights]⟩]
    rfl
  have h1 : calculate_due_time 0 0 0 0
      { allow_proactive := some true, max_contacts_per_day := 3,
        quiet_start := 1320, quiet_end := 480 }
      [("morning", (9, 9)), ("day", (12, 17)), ("evening", (17, 21))]
      10000 = Except.error "empty range for randrange" := by
    have hlk : lookupWindow "morning"
        [("morning", (9, 9)), ("day", (12, 17)), ("evening", (17, 21))]
        = some (9, 9) := rfl
    have hri : randint 0 9 (9 - 1)
        = Except.error "empty range for randrange" := by
      unfold randint
      rw [if_neg (by norm_num)]
    simp only [calculate_due_time, bind, Except.bind, List.map_cons,
      List.map_nil, hcp, hlk, Option.getD_some, hri]
  exact ⟨h1, plan_for_user_all_error _ _ _ _ _ (fun i => ⟨_, h1⟩)⟩

/-- C10 (amended): with exactly three windows, each a well-formed hour
range `0 ≤ start < end ≤ 24`, the time-slot computation returns a
timestamp; with any other number of windows the hardcoded three weights
make the weighted choice raise, and `plan_for_user` swallows the raise and
returns 0 with no tasks created.  (With three windows, a malformed hour
range can still raise — see the counterexample.) -/
theorem calculate_due_time_spec (r1 r2 r3 r4 : Nat)
    (prefs : UserPrefsRow) (windows : List (String × Int × Int))
    (now : Int) :
    (windows.length = 3 →
      (∀ w ∈ windows, 0 ≤ w.2.1 ∧ w.2.1 < w.2.2 ∧ w.2.2 ≤ 24) →
      ∃ d, calculate_due_time r1 r2 r3 r4 prefs windows now
        = Except.ok d) ∧
    (windows.length ≠ 3 →
      ∃ e, calculate_due_time r1 r2 r3 r4 prefs windows now
        = Except.error e) ∧
    (windows.length ≠ 3 →
      ∀ (oracle : List String → Nat) (a b c d : Nat → Nat)
        (prefs2 : UserPrefsRow) (contacts_today : Nat)
        (candidates : List String),
        plan_for_user oracle
          (fun i => calculate_due_time (a i) (b i) (c i) (d i) prefs
            windows now)
          prefs2 contacts_today candidates = ([], 0)) := by
  refine ⟨?_, ?_, ?_⟩
  · intro h3 hwf
    obtain ⟨name, hcp, hnm⟩ := choicesPick_ok r1 (windows.map Prod.fst)
      window_weights (by simp [h3, window_weights])
      (by
        intro hnil
        rw [List.map_eq_nil_iff] at hnil
        rw [hnil] at h3
        simp at h3)
      (by norm_num [window_weights])
    obtain ⟨se, hlk, hmem⟩ := lookupWindow_mem name windows hnm
    have hw := hwf (name, se) hmem
    dsimp only at hw
    obtain ⟨hs0, hslt, hsle⟩ := hw
    obtain ⟨hour, hri, hh1, hh2⟩ := randint_ok r2 se.1 (se.2 - 1)
      (by omega)
    obtain ⟨minute, hri2, hm1, hm2⟩ := randint_ok r3 0 59 (by omega)
    have hrep : datetimeReplace now hour minute
        = Except.ok (dayStart now + hour * 60 + minute) := by
      unfold datetimeReplace
      rw [if_pos ⟨by omega, by omega, by omega, by omega⟩]
    obtain ⟨jit, hj, hj1, hj2⟩ := randint_ok r4 (-15) 15 (by omega)
    simp only [calculate_due_time, bind, Except.bind, hcp, hlk,
      Option.getD_some, hri, hri2, hrep, hj, pure, Except.pure]
    exact ⟨_, rfl⟩
  · intro h3
    obtain ⟨e, he⟩ := choicesPick_error r1 (windows.map Prod.fst)
      window_weights (by
        intro hcon
        rw [List.length_map] at hcon
        rw [hcon.1] at h3
        simp [window_weights] at h3)
    refine ⟨e, ?_⟩
    simp only [calculate_due_time, bind, Except.bind, he]
  · intro h3 oracle a b c d prefs2 contacts_today candidates
    apply plan_for_user_all_error
    intro i
    obtain ⟨e, he⟩ := choicesPick_error (a i) (windows.map Prod.fst)
      window_weights (by
        intro hcon
        rw [List.length_map] at hcon
        rw [hcon.1] at h3
        simp [window_weights] at h3)
    refine ⟨e, ?_⟩
    simp only [calculate_due_time, bind, Except.bind, he]

/-- Witness for C10 (amended): with the three default well-formed windows
the computation succeeds, and with two windows the planner plans nothing.
-/
theorem calculate_due_time_spec_witness :
    (∃ d, calculate_due_time 0 5 7 3
      { allow_proactive := some true, max_contacts_per_day := 3,
        quiet_start := 1320, quiet_end := 480 }
      [("morning", (9, 12)), ("day", (12, 17)), ("evening", (17, 21))]
      10000 = Except.ok d) ∧
    plan_for_user (fun _ => 0)
      (fun i => calculate_due_time i i i i
        { allow_proactive := some true, max_contacts_per_day := 3,
          quiet_start := 1320, quiet_end := 480 }
        [("morning", (9, 12)), ("day", (12, 17))] 10000)
      { allow_proactive := some true, max_contacts_per_day := 3,
        quiet_start := 1320, quiet_end := 480 }
      0 ["PING"] = ([], 0) :=
  ⟨(calculate_due_time_spec 0 5 7 3
      { allow_proactive := some true, max_contacts_per_day := 3,
        quiet_start := 1320, quiet_end := 480 }
      [("morning", (9, 12)), ("day", (12, 17)), ("evening", (17, 21))]
      10000).1 rfl (by decide),
   (calculate_due_time_spec 0 0 0 0
      { allow_proactive := some true, max_contacts_per_day := 3,
        quiet_start := 1320, quiet_end := 480 }
      [("morning", (9, 12)), ("day", (12, 17))] 10000).2.2 (by decide)
     (fun _ => 0) (fun i => i) (fun i => i) (fun i => i) (fun i => i)
     { allow_proactive := some true, max_contacts_per_day := 3,
       quiet_start := 1320, quiet_end := 480 } 0 ["PING"]⟩

end BotOracle
